import Mathlib

/-!
Shallow embedding of the LLM Gateway core (`02_src/gateway/`): data model
(`models.py`), retry policy (`retry_policy.py`), token counting and the
sliding-window rate-limit tracker (`rate_limiter.py`), request queue and
base batch executor (`llm_gateway.py`), retry wrapper
(`batch_executor_retry.py`), rate-limit wrapper
(`batch_executor_rate_limit.py`) and response router
(`response_router.py`), together with theorems settling the frozen claims.

Modelling conventions:
* machine time is an abstract `Nat` tick count (same unit as the window or
  timeout parameter of the operation at hand);
* Python floats in the retry-delay computation are modelled as rationals;
* an `asyncio.Future` is a one-shot cell `Option (Except PyError LLMResponse)`
  (`none` = pending); `set_result` / `set_exception` under the `done()` guard
  never overwrite a completed cell;
* Python `Dict[str, Any]` payloads that the gateway treats as opaque are
  rendered as association lists of strings (`JsonDict`), and integer-valued
  usage dictionaries as `UsageDict`;
* `asyncio.CancelledError` derives from `BaseException`, not `Exception`, so
  it is a separate channel (`AdaptorOutcome.cancelledSignal` / the `Bool`
  cancellation flag), distinct from the `PyError` type that `except Exception`
  clauses catch.
-/

/-- Opaque rendering of a Python `Dict[str, Any]` payload. -/
abbrev JsonDict := List (String × String)

/-- Integer-valued usage dictionary (`usage`, `usage_metadata`). -/
abbrev UsageDict := List (String × Nat)

/-- `models.LLMMessage`. -/
structure LLMMessage where
  role : String
  content : String
  name : Option String := none
  tool_call : Option JsonDict := none
deriving DecidableEq

/-- `models.LLMTool`. -/
structure LLMTool where
  name : String
  description : String
  parameters : JsonDict
deriving DecidableEq

/-- `models.LLMRequest`. -/
structure LLMRequest where
  request_id : String
  model : String
  messages : List LLMMessage
  tools : Option (List LLMTool) := none
  temperature : ℚ := 0
  agent_id : Option String := none
  trace_id : Option String := none
deriving DecidableEq

/-- `models.LLMResponse`. -/
structure LLMResponse where
  request_id : String
  content : String
  tool_calls : Option (List JsonDict) := none
  usage : Option UsageDict := none
  latency_ms : Nat := 0
deriving DecidableEq

/-- `models.ModelConfig`. -/
structure ModelConfig where
  provider : String
  endpoint : String
  api_key : String
  model_name : String
  max_requests_per_minute : Option Nat := none
  max_tokens_per_minute : Option Nat := none
  batch_size : Nat := 10
  batch_timeout_ms : Nat := 100
deriving DecidableEq

/-- Python exceptions that an `except Exception` clause catches
(`asyncio.CancelledError` derives from `BaseException` and is deliberately
not a constructor here). -/
inductive PyError where
  | httpStatus (code : Nat)
  | connectionError (msg : String)
  | timeoutError (msg : String)
  | rateLimit (reason : String)
  | other (msg : String)
deriving DecidableEq

/-- `retry_policy.RetryPolicy` (the dataclass fields). -/
structure RetryPolicy where
  max_retries : Nat := 3
  initial_delay_ms : ℚ := 1000
  backoff_multiplier : ℚ := 2
  jitter_ms : ℚ := 500

/-- `RetryPolicy.get_delay`: `(initial_delay_ms * backoff_multiplier ** attempt
+ random.uniform(-jitter_ms, jitter_ms)) / 1000`; the uniform draw is the
explicit argument `draw`. No clamping is applied. -/
def RetryPolicy.get_delay (p : RetryPolicy) (attempt : Nat) (draw : ℚ) : ℚ :=
  (p.initial_delay_ms * p.backoff_multiplier ^ attempt + draw) / 1000

/-- `RetryPolicy.should_retry`: retry on HTTP 429 and 5xx, not on other 4xx;
HTTP statuses outside 400-599 fall through every branch and return `False`
(an `HTTPStatusError` is not a `ConnectionError`/`TimeoutError`); retry on
connection and timeout errors; default `False`. The `attempt` parameter is
unused in the source as well. -/
def RetryPolicy.should_retry (_p : RetryPolicy) (error : PyError) : Bool :=
  match error with
  | .httpStatus status =>
      if status == 429 then true
      else if 500 ≤ status ∧ status < 600 then true
      else if 400 ≤ status ∧ status < 500 then false
      else false
  | .connectionError _ => true
  | .timeoutError _ => true
  | _ => false

/-- `rate_limiter.TokenCounter`: the `_encoder` field is `None` when tiktoken
is unavailable, otherwise an encoding function. -/
structure TokenCounter where
  encoder : Option (String → Nat)

/-- `TokenCounter.count_tokens`: encoder length when available, else the
fallback `len(text) // 4`. -/
def TokenCounter.count_tokens (tc : TokenCounter) (text : String)
    (_model : String) : Nat :=
  match tc.encoder with
  | some enc => enc text
  | none => text.length / 4

/-- `TokenCounter.count_request_tokens`: sum over message contents, plus tool
descriptions and stringified tool parameters when tools are present. -/
def TokenCounter.count_request_tokens (tc : TokenCounter)
    (request : LLMRequest) : Nat :=
  let msgTotal := request.messages.foldl
    (fun acc msg => acc + tc.count_tokens msg.content request.model) 0
  match request.tools with
  | none => msgTotal
  | some tools => tools.foldl
      (fun acc tool =>
        acc + tc.count_tokens tool.description request.model
            + tc.count_tokens (toString tool.parameters) request.model)
      msgTotal

/-- `TokenCounter.estimate_response_tokens`. -/
def TokenCounter.estimate_response_tokens (_tc : TokenCounter) : Nat := 1000

/-! ### Futures and the base batch executor (`llm_gateway.BatchExecutor`) -/

/-- The pool of `asyncio.Future` one-shot cells, addressed by index: `none` is
a pending future, `some v` a completed one (`set_result` / `set_exception`). -/
abbrev Cells := List (Option (Except PyError LLMResponse))

instance : DecidableEq (Except PyError LLMResponse) := fun a b =>
  match a, b with
  | .ok x, .ok y =>
      if h : x = y then .isTrue (congrArg Except.ok h)
      else .isFalse (fun hc => h (Except.ok.inj hc))
  | .error x, .error y =>
      if h : x = y then .isTrue (congrArg Except.error h)
      else .isFalse (fun hc => h (Except.error.inj hc))
  | .ok _, .error _ => .isFalse (fun hc => Except.noConfusion hc)
  | .error _, .ok _ => .isFalse (fun hc => Except.noConfusion hc)

/-- `if not fut.done(): fut.set_result(v)` — writes cell `i` only when it is
still pending; out-of-range indices and completed cells are left unchanged. -/
def trySet (cells : Cells) (i : Nat) (v : Except PyError LLMResponse) : Cells :=
  match cells.get? i with
  | some none => cells.set i (some v)
  | _ => cells

/-- One provider result as returned by `self._client.abatch` (langchain
message): `content` plus optional `usage_metadata`. -/
structure ProviderResult where
  content : String
  usage_metadata : Option UsageDict := none
deriving DecidableEq

/-- Outcome of one `abatch` invocation: a result list, a raised exception
(caught by `except Exception`), or a cancellation signal
(`asyncio.CancelledError`, which `except Exception` does not catch). -/
inductive AdaptorOutcome where
  | ok (results : List ProviderResult)
  | raised (e : PyError)
  | cancelledSignal
deriving DecidableEq

/-- A batch as handed to an executor: `(request, future-cell index)` pairs. -/
abbrev Batch := List (LLMRequest × Nat)

/-- Error path shared by the executors: complete every still-pending future of
the batch with the same exception `e`. -/
def setAllExceptions (e : PyError) (cells : Cells) (batch : Batch) : Cells :=
  batch.foldl (fun cs p => trySet cs p.2 (.error e)) cells

/-- `BatchExecutor.execute_batch` body. An empty batch returns at once.
Otherwise the adaptor outcome is dispatched:
* results are zipped with the batch (`zip(requests, futures, responses)`) and
  each still-pending future is resolved with an `LLMResponse` echoing the
  request id, carrying the provider content and `usage_metadata`, and the
  measured latency (`latencyMs` parameter);
* a raised exception is caught by the `except Exception` clause, which
  completes every pending future with that exception and returns normally —
  so the returned flag (did a `BaseException` escape?) is `false`;
* a cancellation signal escapes without touching any future (flag `true`). -/
def executeBatchBase (outcome : AdaptorOutcome) (latencyMs : Nat)
    (cells : Cells) (batch : Batch) : Cells × Bool :=
  if batch.isEmpty then (cells, false)
  else
    match outcome with
    | .ok results =>
        ((batch.zip results).foldl
          (fun cs pr =>
            trySet cs pr.1.2
              (.ok { request_id := pr.1.1.request_id
                     content := pr.2.content
                     usage := pr.2.usage_metadata
                     latency_ms := latencyMs }))
          cells, false)
    | .raised e => (setAllExceptions e cells batch, false)
    | .cancelledSignal => (cells, true)

/-! ### Retry wrapper (`batch_executor_retry.BatchExecutorWithRetry`) -/

/-- Observable behaviour of one `await super().execute_batch(batch)` call as
seen from the retry wrapper's `try` block: a normal return, a raised
`Exception`, or a raised `asyncio.CancelledError`, each with the cell pool
as mutated by the call. -/
inductive CallResult where
  | returned (cells : Cells)
  | raisedErr (cells : Cells) (e : PyError)
  | raisedCancel (cells : Cells)

/-- The `for attempt in range(max_retries + 1)` loop of
`BatchExecutorWithRetry.execute_batch`, over an abstract inner executor
(`inner attempt cells` is the call made at that attempt). Returns the final
cells, the number of inner invocations made, and whether a cancellation
escaped. On a raised exception the wrapper retries when
`attempt < max_retries` and `should_retry` holds, else completes every
pending future with the exception and returns. `fuel` is the number of loop
iterations remaining (`max_retries + 1 - attempt`); the loop body always
returns or continues, so fuel never runs out on the calls made here. -/
def retryLoop (policy : RetryPolicy) (inner : Nat → Cells → CallResult)
    (batch : Batch) : Nat → Nat → Cells → Cells × Nat × Bool
  | _, 0, cells => (cells, 0, false)
  | attempt, fuel + 1, cells =>
    match inner attempt cells with
    | .returned c => (c, 1, false)
    | .raisedCancel c => (c, 1, true)
    | .raisedErr c e =>
        if attempt < policy.max_retries ∧ policy.should_retry e then
          let r := retryLoop policy inner batch (attempt + 1) fuel c
          (r.1, r.2.1 + 1, r.2.2)
        else (setAllExceptions e c batch, 1, false)

/-- `BatchExecutorWithRetry.execute_batch` over an abstract inner executor:
empty batches return at once, otherwise the retry loop runs from attempt 0
with `max_retries + 1` iterations available. -/
def executeBatchRetry (policy : RetryPolicy) (inner : Nat → Cells → CallResult)
    (batch : Batch) (cells : Cells) : Cells × Nat × Bool :=
  if batch.isEmpty then (cells, 0, false)
  else retryLoop policy inner batch 0 (policy.max_retries + 1) cells

/-- The inner executor the retry wrapper actually has:
`super().execute_batch` resolves to `BatchExecutor.execute_batch`, whose
`except Exception` clause swallows every raised exception, so the call either
returns normally or propagates a cancellation — it never raises a `PyError`
to the wrapper. `adaptor attempt` is the outcome of the `abatch` invocation
made on that attempt. -/
def baseAsInner (adaptor : Nat → AdaptorOutcome) (latencyMs : Nat)
    (batch : Batch) : Nat → Cells → CallResult :=
  fun attempt cells =>
    let r := executeBatchBase (adaptor attempt) latencyMs cells batch
    if r.2 then .raisedCancel r.1 else .returned r.1

/-- The composed retry executor as constructed in the repository:
`BatchExecutorWithRetry` wrapping `BatchExecutor`. -/
def executeBatchRetryComposed (policy : RetryPolicy)
    (adaptor : Nat → AdaptorOutcome) (latencyMs : Nat) (batch : Batch)
    (cells : Cells) : Cells × Nat × Bool :=
  executeBatchRetry policy (baseAsInner adaptor latencyMs batch) batch cells

/-! ### Sliding-window tracker (`rate_limiter.RateLimitTracker`) and the
rate-limit wrapper (`batch_executor_rate_limit.BatchExecutorWithRateLimit`).
Timestamps are abstract `Nat` ticks in the same unit as `window`. -/

/-- `RateLimitTracker` state: the deque of `(timestamp, tokens)` samples. -/
structure Tracker where
  requests : List (Nat × Nat)
deriving DecidableEq

/-- The eviction loop shared by every tracker operation: drop leading samples
with `timestamp < now - window` (with truncated `Nat` subtraction the cutoff
is 0 while `now < window`, evicting nothing, as for real clock values). -/
def Tracker.evict (tr : Tracker) (window now : Nat) : Tracker :=
  ⟨tr.requests.dropWhile (fun s => s.1 < now - window)⟩

/-- `RateLimitTracker.add_request`: append `(now, tokens)`, then evict. -/
def Tracker.add_request (tr : Tracker) (window now tokens : Nat) : Tracker :=
  Tracker.evict ⟨tr.requests ++ [(now, tokens)]⟩ window now

/-- Token sum of the samples currently held. -/
def Tracker.tokenSum (tr : Tracker) : Nat :=
  tr.requests.foldl (fun acc s => acc + s.2) 0

/-- `RateLimitTracker.get_usage`: evict, then report
`(requests_count, tokens_count)` together with the mutated tracker. -/
def Tracker.get_usage (tr : Tracker) (window now : Nat) :
    Tracker × Nat × Nat :=
  let tr1 := tr.evict window now
  (tr1, tr1.requests.length, tr1.tokenSum)

/-- `RateLimitTracker.can_make_request`: a limit of 0 disables its check;
otherwise the request may proceed only while the window is strictly below
the limit. Returns the mutated tracker, the verdict and the reason string. -/
def Tracker.can_make_request (tr : Tracker) (window now maxRpm maxTpm : Nat) :
    Tracker × Bool × String :=
  let u := tr.get_usage window now
  if maxRpm ≠ 0 ∧ maxRpm ≤ u.2.1 then (u.1, false, "Rate limit exceeded")
  else if maxTpm ≠ 0 ∧ maxTpm ≤ u.2.2 then (u.1, false, "Token limit exceeded")
  else (u.1, true, "")

/-- The TPM branch of `wait_until_available`: pop samples from the front of a
copy of the deque while the running token sum still reaches `maxTpm`. -/
def popWhileOver (maxTpm : Nat) : Nat → List (Nat × Nat) → List (Nat × Nat)
  | _, [] => []
  | tokens, s :: rest =>
      if maxTpm ≤ tokens then popWhileOver maxTpm (tokens - s.2) rest
      else s :: rest

/-- `RateLimitTracker.wait_until_available`: after eviction, if the RPM limit
is reached the wait runs until the oldest sample rolls off the window; else
if the TPM limit is reached, samples are popped oldest-first until the sum
drops below the limit and the wait runs until the first surviving sample
rolls off (0 when none survives); else 0. -/
def Tracker.wait_until_available (tr : Tracker)
    (window now maxRpm maxTpm : Nat) : Tracker × Nat :=
  let tr1 := tr.evict window now
  if maxRpm ≠ 0 ∧ maxRpm ≤ tr1.requests.length then
    match tr1.requests with
    | [] => (tr1, 0)
    | s :: _ => (tr1, s.1 + window - now)
  else if maxTpm ≠ 0 ∧ maxTpm ≤ tr1.tokenSum then
    match popWhileOver maxTpm tr1.tokenSum tr1.requests with
    | [] => (tr1, 0)
    | s :: _ => (tr1, s.1 + window - now)
  else (tr1, 0)

/-- `RateLimiter.check_request` for one model (the per-model tracker and
config are in scope): limits of `None` map to 0; when both are absent the
request passes without touching the tracker; otherwise `can_make_request`,
and on refusal `wait_until_available`. Returns the mutated tracker, the
verdict, the reason and the wait. -/
def checkRequest (cfg : ModelConfig) (window : Nat) (tr : Tracker)
    (now : Nat) : Tracker × Bool × String × Nat :=
  let maxRpm := cfg.max_requests_per_minute.getD 0
  let maxTpm := cfg.max_tokens_per_minute.getD 0
  if maxRpm = 0 ∧ maxTpm = 0 then (tr, true, "", 0)
  else
    let c := tr.can_make_request window now maxRpm maxTpm
    if c.2.1 then (c.1, true, "", 0)
    else
      let w := c.1.wait_until_available window now maxRpm maxTpm
      (w.1, false, c.2.2, w.2)

/-- Usage lookup chain of `RateLimiter.register_request`:
`usage.get('output_tokens', usage.get('completion_tokens', 0))` and
`usage.get('total_tokens', input + output)`. -/
def usageLookup (usage : UsageDict) (key : String) (dflt : Nat) : Nat :=
  match usage.lookup key with
  | some v => v
  | none => dflt

/-- `RateLimiter.register_request` for one model: compute input tokens from
the request, take actual usage when the response has it, else input plus the
conservative estimate, and record the total in the tracker. (The repository
defines this operation and its tests call it, but no production code path
invokes it.) -/
def registerRequest (tc : TokenCounter) (window : Nat) (tr : Tracker)
    (now : Nat) (request : LLMRequest) (response : LLMResponse) : Tracker :=
  let inputTokens := tc.count_request_tokens request
  let totalTokens :=
    match response.usage with
    | some usage =>
        let outputTokens :=
          usageLookup usage "output_tokens" (usageLookup usage "completion_tokens" 0)
        usageLookup usage "total_tokens" (inputTokens + outputTokens)
    | none => inputTokens + tc.estimate_response_tokens
  tr.add_request window now totalTokens

/-- The `for request, _ in batch` admission loop of
`BatchExecutorWithRateLimit.execute_batch`: check each request in turn; an
admitted request moves to the next; a refusal with positive wait sleeps that
long (advancing `now`) and moves to the next without re-checking; a refusal
with zero wait aborts with the reason. Returns the mutated tracker, the
clock after any sleeps, and the abort reason if any. -/
def rlCheckLoop (cfg : ModelConfig) (window : Nat) :
    List LLMRequest → Tracker → Nat → Tracker × Nat × Option String
  | [], tr, now => (tr, now, none)
  | _ :: rest, tr, now =>
      let c := checkRequest cfg window tr now
      if c.2.1 then rlCheckLoop cfg window rest c.1 now
      else if 0 < c.2.2.2 then rlCheckLoop cfg window rest c.1 (now + c.2.2.2)
      else (c.1, now, some c.2.2.1)

/-- `BatchExecutorWithRateLimit.execute_batch`: empty batches return at once;
a zero-wait refusal completes every pending future with a rate-limit
exception and makes no adaptor invocation; otherwise the batch is delegated
to `super().execute_batch` — the composed retry-over-base executor, which
never touches the tracker (no call to `register_request` exists on this
path). Returns the tracker, the cells, the adaptor invocation count and the
cancellation flag. -/
def executeBatchRateLimit (cfg : ModelConfig) (window : Nat)
    (policy : RetryPolicy) (adaptor : Nat → AdaptorOutcome) (latencyMs : Nat)
    (tr : Tracker) (now : Nat) (batch : Batch) (cells : Cells) :
    Tracker × Cells × Nat × Bool :=
  if batch.isEmpty then (tr, cells, 0, false)
  else
    match rlCheckLoop cfg window (batch.map Prod.fst) tr now with
    | (tr1, _, some reason) =>
        (tr1, setAllExceptions (.rateLimit reason) cells batch, 0, false)
    | (tr1, _, none) =>
        let r := executeBatchRetryComposed policy adaptor latencyMs batch cells
        (tr1, r.1, r.2.1, r.2.2)

/-! ### Request queue (`llm_gateway.RequestQueue.get_batch`).
The queue contents are modelled as the stream of entries that will pass
through it, each with its arrival time; `get_batch` never inspects the
entries themselves, so they stay polymorphic. `tCall` is the time at which
`get_batch` is invoked; the code computes
`deadline = datetime.now() + timedelta(milliseconds=batch_timeout_ms)` at
that moment, before awaiting the first entry. -/

/-- The `while len(requests) < batch_size` accumulation loop: `now` is the
running clock (the time the previous `get` returned), `remaining` the number
of further entries the size bound allows. The loop breaks when the size
bound is hit, when `deadline - now <= 0`, or when the next entry does not
arrive by the deadline (`asyncio.wait_for` timeout); an entry arriving by
the deadline is appended and the clock advances to its arrival. -/
def collectRest {α : Type} (deadline : Nat) :
    Nat → Nat → List (α × Nat) → List α
  | _, _, [] => []
  | _, 0, _ => []
  | now, remaining + 1, (x, a) :: rest =>
      if deadline ≤ now then []
      else if a ≤ deadline then x :: collectRest deadline (max now a) remaining rest
      else []

/-- `RequestQueue.get_batch`: fix `deadline = tCall + batchTimeoutMs`, block
for the first entry (returning at `max tCall a₁`), then accumulate further
entries with `collectRest`. An empty stream never yields a batch (the code
blocks forever); it is modelled as the empty list. -/
def getBatch {α : Type} (batchSize batchTimeoutMs tCall : Nat)
    (queue : List (α × Nat)) : List α :=
  match queue with
  | [] => []
  | (x, a) :: rest =>
      x :: collectRest (tCall + batchTimeoutMs) (max tCall a) (batchSize - 1) rest

/-- Modelled from the spec: the variant of `get_batch` whose accumulation
deadline starts at the arrival of the first request of the pending batch
("the timeout starts when the first request of the pending batch arrives"),
i.e. `deadline = max tCall a₁ + batchTimeoutMs`; everything else as in the
code. Used only to compare the code's timing against the spec's words. -/
def getBatchSpecTiming {α : Type} (batchSize batchTimeoutMs tCall : Nat)
    (queue : List (α × Nat)) : List α :=
  match queue with
  | [] => []
  | (x, a) :: rest =>
      x :: collectRest (max tCall a + batchTimeoutMs) (max tCall a)
        (batchSize - 1) rest

/-! ### Gateway facade `LLMGateway.batch` (`llm_gateway.py`). -/

/-- One step of `by_model.setdefault(req.model, []).append(req)`: append the
request to its model's bucket, keeping buckets in first-appearance order
(Python dict insertion order). -/
def insertByModel (groups : List (String × List LLMRequest))
    (r : LLMRequest) : List (String × List LLMRequest) :=
  match groups with
  | [] => [(r.model, [r])]
  | (m, rs) :: rest =>
      if m = r.model then (m, rs ++ [r]) :: rest
      else (m, rs) :: insertByModel rest r

/-- The `by_model` grouping built by `LLMGateway.batch`. -/
def groupByModel (requests : List LLMRequest) :
    List (String × List LLMRequest) :=
  requests.foldl insertByModel []

/-- `LLMGateway.batch`: group the requests by model, then for each model (in
dict insertion order) gather the per-request results in bucket order and
extend the result list. `respond` abstracts the awaited outcome of
`self.request(req)` for one request. -/
def gatewayBatch (respond : LLMRequest → LLMResponse)
    (requests : List LLMRequest) : List LLMResponse :=
  ((groupByModel requests).map (fun g => g.2.map respond)).flatten

/-! ### Response router (`response_router.ResponseRouter`). -/

/-- A `responses.jsonl` line (the fields the claims are about). -/
structure RespLogEntry where
  request_id : String
  agent_id : Option String
  latency_ms : Nat
deriving DecidableEq

/-- An `errors.jsonl` line written by the router. -/
structure ErrLogEntry where
  request_id : String
  agent_id : Option String
  error : PyError
deriving DecidableEq

/-- Router state plus the future cells it may touch: `pending_requests` and
`pending_futures` are the two dicts (futures by cell index), `logEnabled`
models `log_dir` being set, and the two logs collect written lines. -/
structure RouterWorld where
  cells : Cells
  pendingRequests : List (String × LLMRequest)
  pendingFutures : List (String × Nat)
  logEnabled : Bool
  responsesLog : List RespLogEntry
  errorsLog : List ErrLogEntry
deriving DecidableEq

/-- Dict lookup on an association list (first match, as a Python dict whose
keys are unique). -/
def alookup {α : Type} (assoc : List (String × α)) (key : String) :
    Option α :=
  match assoc with
  | [] => none
  | (k, v) :: rest => if k = key then some v else alookup rest key

/-- `dict.pop(request_id, None)`: remove the key's entry. -/
def aremove {α : Type} : List (String × α) → String → List (String × α)
  | [], _ => []
  | p :: rest, key =>
      if p.1 = key then aremove rest key else p :: aremove rest key

/-- `ResponseRouter.register`. -/
def RouterWorld.register (w : RouterWorld) (request : LLMRequest)
    (cellIdx : Nat) : RouterWorld :=
  { w with
    pendingRequests := aremove w.pendingRequests request.request_id
      ++ [(request.request_id, request)]
    pendingFutures := aremove w.pendingFutures request.request_id
      ++ [(request.request_id, cellIdx)] }

/-- `ResponseRouter.resolve`: look the future up by `response.request_id`;
when absent, warn and return unchanged. When present, complete it with the
response if still pending, then `_unregister` the entry from both dicts, then
`_log_response` — which reads `self._pending_requests` *after* the
unregistration, so its `agent_id` lookup misses. -/
def RouterWorld.resolve (w : RouterWorld) (response : LLMResponse) :
    RouterWorld :=
  match alookup w.pendingFutures response.request_id with
  | none => w
  | some cellIdx =>
      let cells1 := trySet w.cells cellIdx (.ok response)
      let pr1 := aremove w.pendingRequests response.request_id
      let pf1 := aremove w.pendingFutures response.request_id
      let agentId := (alookup pr1 response.request_id).bind (fun r => r.agent_id)
      let log1 :=
        if w.logEnabled then
          w.responsesLog
            ++ [{ request_id := response.request_id
                  agent_id := agentId
                  latency_ms := response.latency_ms }]
        else w.responsesLog
      { w with cells := cells1, pendingRequests := pr1, pendingFutures := pf1
               responsesLog := log1 }

/-- `ResponseRouter.resolve_error`: symmetric with `resolve`, completing the
future with the exception and writing to `errors.jsonl`. -/
def RouterWorld.resolve_error (w : RouterWorld) (request_id : String)
    (error : PyError) : RouterWorld :=
  match alookup w.pendingFutures request_id with
  | none => w
  | some cellIdx =>
      let cells1 := trySet w.cells cellIdx (.error error)
      let pr1 := aremove w.pendingRequests request_id
      let pf1 := aremove w.pendingFutures request_id
      let agentId := (alookup pr1 request_id).bind (fun r => r.agent_id)
      let log1 :=
        if w.logEnabled then
          w.errorsLog
            ++ [{ request_id := request_id, agent_id := agentId, error := error }]
        else w.errorsLog
      { w with cells := cells1, pendingRequests := pr1, pendingFutures := pf1
               errorsLog := log1 }

/-- A router invocation from the executor side: either `resolve(response)` or
`resolve_error(request_id, error)`. -/
inductive RouterCall where
  | res (response : LLMResponse)
  | rejectWith (request_id : String) (error : PyError)
deriving DecidableEq

/-- The `request_id` a router call targets. -/
def RouterCall.callId : RouterCall → String
  | .res response => response.request_id
  | .rejectWith request_id _ => request_id

/-- Dispatch a router call. -/
def RouterWorld.applyCall (w : RouterWorld) : RouterCall → RouterWorld
  | .res response => w.resolve response
  | .rejectWith request_id error => w.resolve_error request_id error

/-! ## Theorems -/

/-- C5: the claim asserts `get_delay` is clamped to be nonnegative for every
jitter draw in `[-jitter_ms, jitter_ms]`. The code applies no clamp: with
`initial_delay_ms = 100`, `backoff_multiplier = 2`, `jitter_ms = 500`,
attempt 0 and the draw `-500` (which lies in the admissible range), the
returned delay is `-2/5` seconds, strictly negative. -/
theorem c5_counterexample :
    RetryPolicy.get_delay ⟨3, 100, 2, 500⟩ 0 (-500) = -2/5 ∧
    RetryPolicy.get_delay ⟨3, 100, 2, 500⟩ 0 (-500) < 0 ∧
    -(500 : ℚ) ≤ -500 ∧ (-500 : ℚ) ≤ 500 := by
  refine ⟨?_, ?_, le_refl _, by norm_num⟩ <;>
    norm_num [RetryPolicy.get_delay]

/-- C5 (amended): for every attempt `a` and jitter draw in
`[-jitter_ms, jitter_ms]`, `get_delay a` lies in
`[(d_a - jitter_ms) / 1000, (d_a + jitter_ms) / 1000]` where
`d_a = initial_delay_ms * backoff_multiplier ^ a`; it is nonnegative
whenever `jitter_ms ≤ d_a` (in particular under the defaults), but no clamp
to `≥ 0` is applied, so the lower end of the interval is not `max 0 (...)`. -/
theorem c5_delay_bounds (p : RetryPolicy) (a : Nat) (draw : ℚ)
    (h1 : -p.jitter_ms ≤ draw) (h2 : draw ≤ p.jitter_ms) :
    (p.initial_delay_ms * p.backoff_multiplier ^ a - p.jitter_ms) / 1000
        ≤ p.get_delay a draw ∧
    p.get_delay a draw
        ≤ (p.initial_delay_ms * p.backoff_multiplier ^ a + p.jitter_ms) / 1000 ∧
    (p.jitter_ms ≤ p.initial_delay_ms * p.backoff_multiplier ^ a →
        0 ≤ p.get_delay a draw) := by
  unfold RetryPolicy.get_delay
  have h1000 : (0 : ℚ) < 1000 := by norm_num
  refine ⟨?_, ?_, fun hj => ?_⟩
  · exact (div_le_div_iff_of_pos_right h1000).mpr (by linarith)
  · exact (div_le_div_iff_of_pos_right h1000).mpr (by linarith)
  · exact div_nonneg (by linarith) (by norm_num)

/-- Closed witness for `c5_delay_bounds` at the policy of test scenario S4
style parameters (`initial_delay_ms = 1000`, `multiplier = 2`,
`jitter_ms = 500`), attempt 1 and draw `-500`. -/
theorem c5_delay_bounds_witness :
    -(500 : ℚ) ≤ -500 ∧ (-500 : ℚ) ≤ 500 ∧
    (((1000 : ℚ) * 2 ^ 1 - 500) / 1000
        ≤ RetryPolicy.get_delay ⟨3, 1000, 2, 500⟩ 1 (-500) ∧
      RetryPolicy.get_delay ⟨3, 1000, 2, 500⟩ 1 (-500)
        ≤ ((1000 : ℚ) * 2 ^ 1 + 500) / 1000 ∧
      ((500 : ℚ) ≤ 1000 * 2 ^ 1 →
        0 ≤ RetryPolicy.get_delay ⟨3, 1000, 2, 500⟩ 1 (-500))) :=
  ⟨le_refl _, by norm_num,
    c5_delay_bounds ⟨3, 1000, 2, 500⟩ 1 (-500) (le_refl _) (by norm_num)⟩

/-- C6: the claim asserts the tokenizer-free fallback returns
`max(1, len(text) / 4)`, hence at least 1 on every input. The code returns
`len(text) // 4` with no minimum: on the empty string the fallback yields 0,
not `max 1 0 = 1`. -/
theorem c6_counterexample :
    TokenCounter.count_tokens ⟨none⟩ "" "claude-haiku" = 0 ∧
    TokenCounter.count_tokens ⟨none⟩ "" "claude-haiku"
      ≠ max 1 (("" : String).length / 4) := by
  refine ⟨rfl, by decide⟩

/-- C6 (amended): with no provider-specific tokenizer available,
`TokenCounter.count_tokens` returns `len(text) // 4` (integer division) with
no minimum of 1: the count is 0 exactly when the text is shorter than 4
characters, and at least 1 otherwise. -/
theorem c6_fallback_div4 (text model : String) :
    TokenCounter.count_tokens ⟨none⟩ text model = text.length / 4 ∧
    (TokenCounter.count_tokens ⟨none⟩ text model = 0 ↔ text.length < 4) := by
  refine ⟨rfl, ?_⟩
  show text.length / 4 = 0 ↔ text.length < 4
  omega

/-! ### Router lemmas -/

theorem alookup_aremove {α : Type} (assoc : List (String × α)) (key : String) :
    alookup (aremove assoc key) key = none := by
  induction assoc with
  | nil => rfl
  | cons p rest ih =>
      by_cases h : p.1 = key
      · simpa [aremove, h] using ih
      · simpa [aremove, alookup, h] using ih

theorem trySet_preserves_done (cells : Cells) (i : Nat)
    (v : Except PyError LLMResponse) (j : Nat)
    (x : Except PyError LLMResponse) (hx : cells.get? j = some (some x)) :
    (trySet cells i v).get? j = some (some x) := by
  unfold trySet
  match hi : cells.get? i with
  | none => exact hx
  | some (some _) => exact hx
  | some none =>
      by_cases hij : j = i
      · rw [hij] at hx; rw [hi] at hx; cases hx
      · rw [List.get?_set_ne _ _ (fun h => hij h.symm)]
        exact hx

/-- `resolve` / `resolve_error` on a request id absent from
`pending_futures` only warns: the world is unchanged. -/
theorem applyCall_not_found (w : RouterWorld) (c : RouterCall)
    (h : alookup w.pendingFutures c.callId = none) : w.applyCall c = w := by
  cases c with
  | res response =>
      simp only [RouterCall.callId] at h
      simp [RouterWorld.applyCall, RouterWorld.resolve, h]
  | rejectWith request_id error =>
      simp only [RouterCall.callId] at h
      simp [RouterWorld.applyCall, RouterWorld.resolve_error, h]

/-- After any `resolve` / `resolve_error` call, the targeted request id is no
longer registered in `pending_futures` (it is either popped by
`_unregister`, or it was absent already). -/
theorem alookup_applyCall (w : RouterWorld) (c : RouterCall) :
    alookup (w.applyCall c).pendingFutures c.callId = none := by
  cases c with
  | res response =>
      simp only [RouterWorld.applyCall, RouterWorld.resolve, RouterCall.callId]
      match h : alookup w.pendingFutures response.request_id with
      | none => simpa using h
      | some cellIdx => simpa using alookup_aremove w.pendingFutures _
  | rejectWith request_id error =>
      simp only [RouterWorld.applyCall, RouterWorld.resolve_error,
        RouterCall.callId]
      match h : alookup w.pendingFutures request_id with
      | none => simpa using h
      | some cellIdx => simpa using alookup_aremove w.pendingFutures _

/-- The cells after a router call are the old cells or a single `trySet`. -/
theorem applyCall_cells (w : RouterWorld) (c : RouterCall) :
    (w.applyCall c).cells = w.cells ∨
    ∃ i v, (w.applyCall c).cells = trySet w.cells i v := by
  cases c with
  | res response =>
      simp only [RouterWorld.applyCall, RouterWorld.resolve]
      match h : alookup w.pendingFutures response.request_id with
      | none => exact Or.inl rfl
      | some cellIdx => exact Or.inr ⟨cellIdx, .ok response, rfl⟩
  | rejectWith request_id error =>
      simp only [RouterWorld.applyCall, RouterWorld.resolve_error]
      match h : alookup w.pendingFutures request_id with
      | none => exact Or.inl rfl
      | some cellIdx => exact Or.inr ⟨cellIdx, .error error, rfl⟩

/-- C8: resolution is idempotent and never overwrites. A second
`resolve`/`resolve_error` targeting the same `request_id` is a no-op on the
world — the first call unregistered the id, so the second lookup misses —
and in particular every handle keeps the value the first call gave it; and
any handle already completed (e.g. by caller cancellation) before a
`resolve`/`resolve_error` still holds its original value afterwards. -/
theorem c8_idempotent_resolution (w : RouterWorld) (c1 c2 : RouterCall)
    (i : Nat) (v : Except PyError LLMResponse)
    (hid : c1.callId = c2.callId)
    (hv : w.cells.get? i = some (some v)) :
    (w.applyCall c1).applyCall c2 = w.applyCall c1 ∧
    (w.applyCall c1).cells.get? i = some (some v) := by
  constructor
  · apply applyCall_not_found
    rw [← hid]
    exact alookup_applyCall w c1
  · rcases applyCall_cells w c1 with h | ⟨j, u, h⟩
    · rw [h]; exact hv
    · rw [h]; exact trySet_preserves_done w.cells j u i v hv

/-- Closed witness for `c8_idempotent_resolution`: a world with one pending
registered request `"r-1"` (cell 0) and one caller-completed cell 1; the
first call resolves `"r-1"`, the second call targets the same id. -/
theorem c8_idempotent_resolution_witness :
    RouterCall.callId (.res ⟨"r-1", "ok", none, none, 7⟩)
      = RouterCall.callId (.rejectWith "r-1" (.httpStatus 500)) ∧
    (⟨[none, some (.ok ⟨"r-1", "early", none, none, 0⟩)],
        [("r-1", ⟨"r-1", "m", [], none, 0, none, none⟩)], [("r-1", 0)],
        true, [], []⟩ : RouterWorld).cells.get? 1
      = some (some (.ok ⟨"r-1", "early", none, none, 0⟩)) ∧
    ((((⟨[none, some (.ok ⟨"r-1", "early", none, none, 0⟩)],
        [("r-1", ⟨"r-1", "m", [], none, 0, none, none⟩)], [("r-1", 0)],
        true, [], []⟩ : RouterWorld).applyCall
          (.res ⟨"r-1", "ok", none, none, 7⟩)).applyCall
            (.rejectWith "r-1" (.httpStatus 500))
      = (⟨[none, some (.ok ⟨"r-1", "early", none, none, 0⟩)],
        [("r-1", ⟨"r-1", "m", [], none, 0, none, none⟩)], [("r-1", 0)],
        true, [], []⟩ : RouterWorld).applyCall
          (.res ⟨"r-1", "ok", none, none, 7⟩)) ∧
    ((⟨[none, some (.ok ⟨"r-1", "early", none, none, 0⟩)],
        [("r-1", ⟨"r-1", "m", [], none, 0, none, none⟩)], [("r-1", 0)],
        true, [], []⟩ : RouterWorld).applyCall
          (.res ⟨"r-1", "ok", none, none, 7⟩)).cells.get? 1
      = some (some (.ok ⟨"r-1", "early", none, none, 0⟩))) :=
  ⟨rfl, rfl,
    c8_idempotent_resolution _ (.res ⟨"r-1", "ok", none, none, 7⟩)
      (.rejectWith "r-1" (.httpStatus 500)) 1
      (.ok ⟨"r-1", "early", none, none, 0⟩) rfl rfl⟩

theorem trySet_pending_self (cells : Cells) (i : Nat)
    (v : Except PyError LLMResponse) (hi : cells.get? i = some none) :
    (trySet cells i v).get? i = some (some v) := by
  unfold trySet
  rw [hi]
  have hlt : i < cells.length := by
    by_contra hge
    rw [List.get?_eq_none.mpr (Nat.le_of_not_lt hge)] at hi
    cases hi
  rw [List.get?_eq_get (by simpa using hlt)]
  simp

theorem trySet_pending_cases (cells : Cells) (i : Nat)
    (v : Except PyError LLMResponse) (j : Nat)
    (hj : cells.get? j = some none) :
    (trySet cells i v).get? j = some none ∨
    (trySet cells i v).get? j = some (some v) := by
  by_cases hij : j = i
  · subst hij
    exact Or.inr (trySet_pending_self cells j v hj)
  · unfold trySet
    match hi : cells.get? i with
    | none => exact Or.inl hj
    | some (some _) => exact Or.inl hj
    | some none =>
        left
        rw [List.get?_set_ne _ _ (fun h => hij h.symm)]
        exact hj

theorem setAllExceptions_preserves_done (e : PyError) (batch : Batch)
    (cells : Cells) (j : Nat) (x : Except PyError LLMResponse)
    (hx : cells.get? j = some (some x)) :
    (setAllExceptions e cells batch).get? j = some (some x) := by
  induction batch generalizing cells with
  | nil => exact hx
  | cons q rest ih =>
      exact ih (trySet cells q.2 (.error e))
        (trySet_preserves_done cells q.2 (.error e) j x hx)

theorem setAllExceptions_rejects (e : PyError) (batch : Batch)
    (cells : Cells) (p : LLMRequest × Nat) (hp : p ∈ batch)
    (hpend : cells.get? p.2 = some none) :
    (setAllExceptions e cells batch).get? p.2 = some (some (.error e)) := by
  induction batch generalizing cells with
  | nil => cases hp
  | cons q rest ih =>
      rcases List.mem_cons.mp hp with hq | hrest
      · subst hq
        exact setAllExceptions_preserves_done e rest _ p.2 (.error e)
          (trySet_pending_self cells p.2 (.error e) hpend)
      · rcases trySet_pending_cases cells q.2 (.error e) p.2 hpend with h | h
        · exact ih _ hrest h
        · exact setAllExceptions_preserves_done e rest _ p.2 (.error e) h

/-- C9: when the adaptor invocation inside `BatchExecutor.execute_batch`
raises an exception (anything `except Exception` catches) on a non-empty
batch, every handle of the batch that was still pending is completed with
that same exception — none is left pending and no two handles get different
errors from the failure, since each receives exactly `.error e`. -/
theorem c9_batch_error_rejects_all (e : PyError) (latencyMs : Nat)
    (cells : Cells) (batch : Batch) (hne : batch ≠ [])
    (p : LLMRequest × Nat) (hp : p ∈ batch)
    (hpend : cells.get? p.2 = some none) :
    (executeBatchBase (.raised e) latencyMs cells batch).1.get? p.2
      = some (some (.error e)) := by
  match batch, hne with
  | q :: rest, _ =>
      show (setAllExceptions e cells (q :: rest)).get? p.2
        = some (some (.error e))
      exact setAllExceptions_rejects e (q :: rest) cells p hp hpend

/-- Closed witness for `c9_batch_error_rejects_all`: a two-request batch over
cells `[none, none]`, rejected with a connection failure. -/
theorem c9_batch_error_rejects_all_witness :
    ([(⟨"a", "m", [], none, 0, none, none⟩, 0),
      (⟨"b", "m", [], none, 0, none, none⟩, 1)] : Batch) ≠ [] ∧
    ((⟨"b", "m", [], none, 0, none, none⟩, 1) : LLMRequest × Nat)
      ∈ ([(⟨"a", "m", [], none, 0, none, none⟩, 0),
          (⟨"b", "m", [], none, 0, none, none⟩, 1)] : Batch) ∧
    ([none, none] : Cells).get? 1 = some none ∧
    (executeBatchBase (.raised (.connectionError "down")) 3 [none, none]
        [(⟨"a", "m", [], none, 0, none, none⟩, 0),
         (⟨"b", "m", [], none, 0, none, none⟩, 1)]).1.get? 1
      = some (some (.error (.connectionError "down"))) :=
  ⟨by decide, by simp, rfl,
    c9_batch_error_rejects_all (.connectionError "down") 3 [none, none]
      [(⟨"a", "m", [], none, 0, none, none⟩, 0),
       (⟨"b", "m", [], none, 0, none, none⟩, 1)]
      (by decide) (⟨"b", "m", [], none, 0, none, none⟩, 1) (by simp) rfl⟩

/-- C1: evaluation of the composed executor
(`BatchExecutorWithRetry` wrapping `BatchExecutor`) at the failing input of
spec scenario S4 — a one-request batch whose adaptor raises HTTP 429 on its
first invocation and would succeed on the second, with policy
`max_retries = 3, initial_delay_ms = 10, jitter = 0`. The inner
`BatchExecutor.execute_batch` catches the exception itself (`except
Exception`), completes the future with it and returns normally, so the retry
wrapper observes a success and returns after one adaptor invocation: the
adaptor is invoked exactly once (not twice) and the handle is rejected with
the 429 error (not resolved), contradicting the claim and spec scenario S4.
The claim is right about the intended behaviour — the repository's own retry
tests exercise the wrapper with an inner executor that raises — and the code
is wrong: the swallow-then-return composition makes the retry branch
unreachable. -/
theorem c1_composed_never_retries_on_429 :
    (executeBatchRetryComposed ⟨3, 10, 2, 0⟩
        (fun i => if i = 0 then .raised (.httpStatus 429)
                  else .ok [⟨"ok", none⟩])
        5 [(⟨"t-1", "claude-haiku", [⟨"user", "Hello", none, none⟩],
              none, 0, none, none⟩, 0)] [none]).2.1 = 1 ∧
    (executeBatchRetryComposed ⟨3, 10, 2, 0⟩
        (fun i => if i = 0 then .raised (.httpStatus 429)
                  else .ok [⟨"ok", none⟩])
        5 [(⟨"t-1", "claude-haiku", [⟨"user", "Hello", none, none⟩],
              none, 0, none, none⟩, 0)] [none]).1
      = [some (.error (.httpStatus 429))] := by
  constructor <;> rfl

/-- C2: evaluation of the rate-limited executor
(`BatchExecutorWithRateLimit.execute_batch`) at a failing input for the
claimed sliding-window bound. Model config has
`max_requests_per_minute = 1`; twice in the same 60-tick window (times 0 and
1) a one-request batch is executed. Both requests are admitted and resolve
successfully, and the tracker is empty after each execution: the execution
path never records usage — `RateLimiter.register_request` exists (and the
repository's tests call it directly) but no production code path invokes it
after a successful response — so the admission check always sees an empty
window and the claimed bound (at most 1 admission per 60 s) is violated.
The claim matches the spec's explicit requirement ("the caller (or the
executor wrapper) MUST invoke `tracker.record(total_tokens)`"), which the
code fails to implement: a code bug, not a spec error. -/
theorem c2_rate_limit_not_enforced :
    executeBatchRateLimit
        ⟨"claude-haiku", "ep", "key", "claude-3", some 1, none, 10, 100⟩ 60
        ⟨3, 1000, 2, 500⟩ (fun _ => .ok [⟨"ok", none⟩]) 5 ⟨[]⟩ 0
        [(⟨"p-1", "claude-haiku", [], none, 0, none, none⟩, 0)] [none, none]
      = (⟨[]⟩, [some (.ok ⟨"p-1", "ok", none, none, 5⟩), none], 1, false) ∧
    executeBatchRateLimit
        ⟨"claude-haiku", "ep", "key", "claude-3", some 1, none, 10, 100⟩ 60
        ⟨3, 1000, 2, 500⟩ (fun _ => .ok [⟨"ok", none⟩]) 5
        (executeBatchRateLimit
          ⟨"claude-haiku", "ep", "key", "claude-3", some 1, none, 10, 100⟩ 60
          ⟨3, 1000, 2, 500⟩ (fun _ => .ok [⟨"ok", none⟩]) 5 ⟨[]⟩ 0
          [(⟨"p-1", "claude-haiku", [], none, 0, none, none⟩, 0)]
          [none, none]).1 1
        [(⟨"p-2", "claude-haiku", [], none, 0, none, none⟩, 1)]
        (executeBatchRateLimit
          ⟨"claude-haiku", "ep", "key", "claude-3", some 1, none, 10, 100⟩ 60
          ⟨3, 1000, 2, 500⟩ (fun _ => .ok [⟨"ok", none⟩]) 5 ⟨[]⟩ 0
          [(⟨"p-1", "claude-haiku", [], none, 0, none, none⟩, 0)]
          [none, none]).2.1
      = (⟨[]⟩, [some (.ok ⟨"p-1", "ok", none, none, 5⟩),
                some (.ok ⟨"p-2", "ok", none, none, 5⟩)], 1, false) := by
  constructor <;> rfl

/-! ### Queue lemmas -/

theorem collectRest_of_deadline_le {α : Type} (d now rem : Nat)
    (q : List (α × Nat)) (h : d ≤ now) : collectRest d now rem q = [] := by
  cases q with
  | nil => cases rem <;> rfl
  | cons hd tl =>
      cases rem with
      | zero => rfl
      | succ n =>
          obtain ⟨x, a⟩ := hd
          simp only [collectRest]
          rw [if_pos h]

theorem collectRest_length_le {α : Type} (d now rem : Nat)
    (q : List (α × Nat)) : (collectRest d now rem q).length ≤ rem := by
  induction q generalizing now rem with
  | nil => cases rem <;> simp [collectRest]
  | cons hd tl ih =>
      cases rem with
      | zero => simp [collectRest]
      | succ n =>
          obtain ⟨x, a⟩ := hd
          simp only [collectRest]
          by_cases h1 : d ≤ now
          · simp [h1]
          · rw [if_neg h1]
            by_cases h2 : a ≤ d
            · rw [if_pos h2]
              simpa using Nat.succ_le_succ (ih (max now a) n)
            · rw [if_neg h2]
              simp

theorem collectRest_fifo {α : Type} (d now rem : Nat)
    (q : List (α × Nat)) :
    ∃ s, q.map Prod.fst = collectRest d now rem q ++ s := by
  induction q generalizing now rem with
  | nil => exact ⟨[], by cases rem <;> rfl⟩
  | cons hd tl ih =>
      obtain ⟨x, a⟩ := hd
      cases rem with
      | zero => exact ⟨x :: tl.map Prod.fst, rfl⟩
      | succ n =>
          by_cases h1 : d ≤ now
          · exact ⟨x :: tl.map Prod.fst, by simp [collectRest, h1]⟩
          · by_cases h2 : a ≤ d
            · obtain ⟨s, hs⟩ := ih (max now a) n
              exact ⟨s, by simp [collectRest, h1, h2, hs]⟩
            · exact ⟨x :: tl.map Prod.fst, by simp [collectRest, h1, h2]⟩

/-- C3: the claim asserts the accumulation deadline is the first request's
arrival plus `batch_timeout_ms`, so that a long-idle queue still accumulates
for the full timeout after the first arrival. The code computes
`deadline = datetime.now() + timedelta(milliseconds=batch_timeout_ms)`
*before* awaiting the first entry. Counterexample: `get_batch` called at
time 0 with `batch_size = 10`, `batch_timeout_ms = 100`; the first entry
arrives at 200 (idle queue), a second at 210, well within 100 of the first
arrival. The claimed semantics (`getBatchSpecTiming`, deadline
`200 + 100 = 300`) returns both entries; the code's deadline `0 + 100 = 100`
is already past, so the batch is just the first entry. -/
theorem c3_counterexample :
    getBatch 10 100 0 [((1 : Nat), 200), (2, 210)] = [1] ∧
    getBatchSpecTiming 10 100 0 [((1 : Nat), 200), (2, 210)] = [1, 2] ∧
    210 ≤ 200 + 100 := by
  refine ⟨rfl, rfl, by decide⟩

/-- C3 (amended): the accumulation deadline of `get_batch` equals the time
the call is made plus `batch_timeout_ms` — it starts before the first
request arrives, so idle time before the first arrival consumes the budget;
whenever the first request arrives `batch_timeout_ms` or more after the
call, the returned batch is exactly that first request, regardless of how
soon further requests follow. -/
theorem c3_idle_consumes_budget {α : Type} (batchSize batchTimeoutMs tCall : Nat)
    (x : α) (a : Nat) (rest : List (α × Nat))
    (h : tCall + batchTimeoutMs ≤ a) :
    getBatch batchSize batchTimeoutMs tCall ((x, a) :: rest) = [x] := by
  show x :: collectRest (tCall + batchTimeoutMs) (max tCall a)
      (batchSize - 1) rest = [x]
  rw [collectRest_of_deadline_le _ _ _ _ (le_trans h (Nat.le_max_right _ _))]

/-- Closed witness for `c3_idle_consumes_budget` at the counterexample's
parameters. -/
theorem c3_idle_consumes_budget_witness :
    0 + 100 ≤ 200 ∧ getBatch 10 100 0 [((1 : Nat), 200), (2, 210)] = [1] :=
  ⟨by decide, c3_idle_consumes_budget 10 100 0 1 200 [(2, 210)] (by decide)⟩

/-- C7: the claim bounds every returned batch by `batch_size`. The first
entry is taken before the size check (`while len(requests) < batch_size`),
so with the degenerate configuration `batch_size = 0` the returned batch has
1 entry, exceeding `batch_size`. -/
theorem c7_counterexample :
    (getBatch 0 100 0 [((1 : Nat), 0)]).length = 1 ∧
    ¬ (getBatch 0 100 0 [((1 : Nat), 0)]).length ≤ 0 := by
  refine ⟨rfl, by decide⟩

/-- C7 (amended): every batch returned by `get_batch` on a non-empty queue is
non-empty, has at most `max 1 batch_size` entries (the first entry bypasses
the size check; for `batch_size ≥ 1` the bound is `batch_size` as claimed),
and is a prefix of the queue's entries in FIFO submission order. -/
theorem c7_batch_shape {α : Type} (batchSize batchTimeoutMs tCall : Nat)
    (q : List (α × Nat)) (hq : q ≠ []) :
    getBatch batchSize batchTimeoutMs tCall q ≠ [] ∧
    (getBatch batchSize batchTimeoutMs tCall q).length ≤ max 1 batchSize ∧
    ∃ s, q.map Prod.fst = getBatch batchSize batchTimeoutMs tCall q ++ s := by
  match q, hq with
  | (x, a) :: rest, _ =>
      refine ⟨by simp [getBatch], ?_, ?_⟩
      · show (x :: collectRest (tCall + batchTimeoutMs) (max tCall a)
            (batchSize - 1) rest).length ≤ max 1 batchSize
        have := collectRest_length_le (tCall + batchTimeoutMs) (max tCall a)
          (batchSize - 1) rest
        simp only [List.length_cons]
        omega
      · obtain ⟨s, hs⟩ := collectRest_fifo (tCall + batchTimeoutMs)
          (max tCall a) (batchSize - 1) rest
        exact ⟨s, by simp [getBatch, hs]⟩

/-- Closed witness for `c7_batch_shape`: a three-entry queue with
`batch_size = 2`, of which the first two entries form the batch in FIFO
order. -/
theorem c7_batch_shape_witness :
    ([((1 : Nat), 0), (2, 1), (3, 2)] : List (Nat × Nat)) ≠ [] ∧
    (getBatch 2 100 0 [((1 : Nat), 0), (2, 1), (3, 2)] ≠ [] ∧
      (getBatch 2 100 0 [((1 : Nat), 0), (2, 1), (3, 2)]).length ≤ max 1 2 ∧
      ∃ s, ([((1 : Nat), 0), (2, 1), (3, 2)] : List (Nat × Nat)).map Prod.fst
        = getBatch 2 100 0 [((1 : Nat), 0), (2, 1), (3, 2)] ++ s) :=
  ⟨by decide, c7_batch_shape 2 100 0 [(1, 0), (2, 1), (3, 2)] (by decide)⟩

/-! ### Gateway `batch` grouping lemmas -/

open List in
theorem insertByModel_flatten (groups : List (String × List LLMRequest))
    (r : LLMRequest) :
    ((insertByModel groups r).map (fun g => g.2)).flatten ~
      (groups.map (fun g => g.2)).flatten ++ [r] := by
  induction groups with
  | nil => simp [insertByModel]
  | cons g rest ih =>
      obtain ⟨m, rs⟩ := g
      by_cases h : m = r.model
      · simp only [insertByModel, if_pos h, List.map_cons, List.flatten_cons]
        calc (rs ++ [r]) ++ ((rest.map (fun g => g.2)).flatten)
            = rs ++ ([r] ++ (rest.map (fun g => g.2)).flatten) := by
              simp [List.append_assoc]
          _ ~ rs ++ ((rest.map (fun g => g.2)).flatten ++ [r]) :=
              List.Perm.append_left rs List.perm_append_comm
          _ = (rs ++ (rest.map (fun g => g.2)).flatten) ++ [r] := by
              simp [List.append_assoc]
      · simp only [insertByModel, if_neg h, List.map_cons, List.flatten_cons]
        calc rs ++ ((insertByModel rest r).map (fun g => g.2)).flatten
            ~ rs ++ ((rest.map (fun g => g.2)).flatten ++ [r]) :=
              List.Perm.append_left rs ih
          _ = (rs ++ (rest.map (fun g => g.2)).flatten) ++ [r] := by
              simp [List.append_assoc]

open List in
theorem foldl_insertByModel_flatten (reqs : List LLMRequest)
    (acc : List (String × List LLMRequest)) :
    ((reqs.foldl insertByModel acc).map (fun g => g.2)).flatten ~
      (acc.map (fun g => g.2)).flatten ++ reqs := by
  induction reqs generalizing acc with
  | nil => simp
  | cons r tl ih =>
      calc ((tl.foldl insertByModel (insertByModel acc r)).map
              (fun g => g.2)).flatten
          ~ ((insertByModel acc r).map (fun g => g.2)).flatten ++ tl :=
            ih (insertByModel acc r)
        _ ~ ((acc.map (fun g => g.2)).flatten ++ [r]) ++ tl :=
            List.Perm.append_right tl (insertByModel_flatten acc r)
        _ = (acc.map (fun g => g.2)).flatten ++ (r :: tl) := by
            simp [List.append_assoc]

open List in
theorem groupByModel_flatten_perm (reqs : List LLMRequest) :
    ((groupByModel reqs).map (fun g => g.2)).flatten ~ reqs := by
  simpa using foldl_insertByModel_flatten reqs []

theorem gatewayBatch_eq_map_flatten (respond : LLMRequest → LLMResponse)
    (reqs : List LLMRequest) :
    gatewayBatch respond reqs =
      (((groupByModel reqs).map (fun g => g.2)).flatten).map respond := by
  unfold gatewayBatch
  rw [List.map_flatten, List.map_map]
  rfl

theorem foldl_insertByModel_single (m : String) (rs0 tl : List LLMRequest)
    (h : ∀ r ∈ tl, r.model = m) :
    tl.foldl insertByModel [(m, rs0)] = [(m, rs0 ++ tl)] := by
  induction tl generalizing rs0 with
  | nil => simp
  | cons r tl2 ih =>
      have hm : r.model = m := h r (by simp)
      show tl2.foldl insertByModel (insertByModel [(m, rs0)] r) = _
      have hins : insertByModel [(m, rs0)] r = [(m, rs0 ++ [r])] := by
        simp [insertByModel, hm]
      rw [hins, ih (rs0 ++ [r]) (fun x hx => h x (by simp [hx]))]
      simp

theorem groupByModel_single (m : String) (reqs : List LLMRequest)
    (hne : reqs ≠ []) (h : ∀ r ∈ reqs, r.model = m) :
    groupByModel reqs = [(m, reqs)] := by
  match reqs, hne with
  | r :: tl, _ =>
      have hm : r.model = m := h r (by simp)
      show tl.foldl insertByModel (insertByModel [] r) = _
      have hins : insertByModel [] r = [(m, [r])] := by
        simp [insertByModel, hm]
      rw [hins, foldl_insertByModel_single m [r] tl
        (fun x hx => h x (by simp [hx]))]
      rfl

/-- C4: the claim asserts `LLMGateway.batch` returns responses in input
order across models. The code groups requests by model and concatenates the
per-model result lists, so an input interleaving two models comes back
grouped: for requests `"1"` (model A), `"2"` (model B), `"3"` (model A) —
with `request` echoing each request id — the output order is
`["1", "3", "2"]`, not the input order `["1", "2", "3"]`; the element at
index 1 echoes request `"3"`, not request `"2"`. -/
theorem c4_counterexample :
    (gatewayBatch (fun r => ⟨r.request_id, "ok", none, none, 0⟩)
        [⟨"1", "A", [], none, 0, none, none⟩,
         ⟨"2", "B", [], none, 0, none, none⟩,
         ⟨"3", "A", [], none, 0, none, none⟩]).map LLMResponse.request_id
      = ["1", "3", "2"] ∧
    ([⟨"1", "A", [], none, 0, none, none⟩,
      ⟨"2", "B", [], none, 0, none, none⟩,
      ⟨"3", "A", [], none, 0, none, none⟩] :
        List LLMRequest).map LLMRequest.request_id = ["1", "2", "3"] ∧
    (["1", "3", "2"] : List String) ≠ ["1", "2", "3"] := by
  refine ⟨rfl, rfl, by decide⟩

/-- C4 (amended): `LLMGateway.batch` returns one response per request — the
output is a permutation of the per-request responses — grouped by model in
first-appearance order with input order preserved inside each model group;
when all requests target a single model (in particular for any one-model
input) the output is exactly in input order, but not in general. -/
theorem c4_batch_grouped_by_model (respond : LLMRequest → LLMResponse)
    (reqs : List LLMRequest) (m : String) :
    List.Perm (gatewayBatch respond reqs) (reqs.map respond) ∧
    ((∀ r ∈ reqs, r.model = m) →
      gatewayBatch respond reqs = reqs.map respond) := by
  constructor
  · rw [gatewayBatch_eq_map_flatten]
    exact (groupByModel_flatten_perm reqs).map respond
  · intro h
    match reqs with
    | [] => rfl
    | r :: tl =>
        rw [gatewayBatch_eq_map_flatten,
          groupByModel_single m (r :: tl) (by simp) h]
        simp

/-- Closed witness for `c4_batch_grouped_by_model`: a two-request single-model
input, where the output is both a permutation of and equal to the per-request
responses in input order. -/
theorem c4_batch_grouped_by_model_witness :
    List.Perm
      (gatewayBatch (fun r => ⟨r.request_id, "ok", none, none, 0⟩)
        [⟨"1", "A", [], none, 0, none, none⟩,
         ⟨"2", "A", [], none, 0, none, none⟩])
      (([⟨"1", "A", [], none, 0, none, none⟩,
          ⟨"2", "A", [], none, 0, none, none⟩] :
            List LLMRequest).map (fun r => ⟨r.request_id, "ok", none, none, 0⟩)) ∧
    gatewayBatch (fun r => ⟨r.request_id, "ok", none, none, 0⟩)
        [⟨"1", "A", [], none, 0, none, none⟩,
         ⟨"2", "A", [], none, 0, none, none⟩]
      = ([⟨"1", "A", [], none, 0, none, none⟩,
          ⟨"2", "A", [], none, 0, none, none⟩] :
            List LLMRequest).map (fun r => ⟨r.request_id, "ok", none, none, 0⟩) :=
  ⟨(c4_batch_grouped_by_model (fun r => ⟨r.request_id, "ok", none, none, 0⟩)
      [⟨"1", "A", [], none, 0, none, none⟩,
       ⟨"2", "A", [], none, 0, none, none⟩] "A").1,
    (c4_batch_grouped_by_model (fun r => ⟨r.request_id, "ok", none, none, 0⟩)
      [⟨"1", "A", [], none, 0, none, none⟩,
       ⟨"2", "A", [], none, 0, none, none⟩] "A").2 (by decide)⟩

/-- C10: when `resolve` finds the pending future (and a log directory is
set), the `responses.jsonl` line it writes carries `agent_id = None`: the
`_unregister` call precedes `_log_response`, whose lookup of
`pending_requests` therefore misses, even when the registered request
carried an `agent_id`. -/
theorem c10_log_agent_id_none (w : RouterWorld) (response : LLMResponse)
    (hlog : w.logEnabled = true)
    (hfound : (alookup w.pendingFutures response.request_id).isSome) :
    (w.resolve response).responsesLog =
      w.responsesLog
        ++ [{ request_id := response.request_id, agent_id := none,
              latency_ms := response.latency_ms }] := by
  rw [Option.isSome_iff_exists] at hfound
  obtain ⟨cellIdx, hidx⟩ := hfound
  simp only [RouterWorld.resolve, hidx, hlog, alookup_aremove, Option.bind,
    if_true]

/-- Closed witness for `c10_log_agent_id_none`: the registered request
carries `agent_id = some "agent-7"`, yet the written line has
`agent_id = none`. -/
theorem c10_log_agent_id_none_witness :
    (⟨[none], [("r-9", ⟨"r-9", "m", [], none, 0, some "agent-7", none⟩)],
        [("r-9", 0)], true, [], []⟩ : RouterWorld).logEnabled = true ∧
    (alookup (⟨[none],
        [("r-9", ⟨"r-9", "m", [], none, 0, some "agent-7", none⟩)],
        [("r-9", 0)], true, [], []⟩ : RouterWorld).pendingFutures
        "r-9").isSome ∧
    ((⟨[none], [("r-9", ⟨"r-9", "m", [], none, 0, some "agent-7", none⟩)],
        [("r-9", 0)], true, [], []⟩ : RouterWorld).resolve
          ⟨"r-9", "ok", none, none, 42⟩).responsesLog =
      [] ++ [{ request_id := "r-9", agent_id := none, latency_ms := 42 }] :=
  ⟨rfl, by decide,
    c10_log_agent_id_none _ ⟨"r-9", "ok", none, none, 42⟩ rfl (by decide)⟩
